import Mathlib

/-!
Verification of the AutoGradePro grading engine against its design spec.

The definitions below are a shallow embedding of the grading core in
`performance_test/grading_simulator.py` (class `GradingSimulator`).  Python
floats are modelled as exact rationals (`ℚ`); Python strings as Lean
`String`s (lists of characters); Python's whitespace and character-class
predicates are modelled over ASCII, which covers every input exercised
here.  Fallible code paths (the uncaught `ZeroDivisionError` in
`grade_list`) are modelled with `Except`.
-/

/-- Python `str.isspace` / regex `\s` over ASCII: space, tab, newline,
carriage return, vertical tab, form feed. -/
def isPySpace (c : Char) : Bool :=
  c = ' ' || c = '\t' || c = '\n' || c = '\r' || c = '\x0b' || c = '\x0c'

/-- Regex `\d` (ASCII decimal digit). -/
def isPyDigit (c : Char) : Bool :=
  '0' ≤ c && c ≤ '9'

/-- Regex `\w` (word character), ASCII fragment: letters, digits, underscore. -/
def isWordChar (c : Char) : Bool :=
  c.isAlphanum || c = '_'

/-- Drop the longest suffix whose characters satisfy `p`. -/
def dropEndWhile (p : Char → Bool) (l : List Char) : List Char :=
  (l.reverse.dropWhile p).reverse

/-- Python `str.strip()` on the character list: remove surrounding whitespace. -/
def stripL (l : List Char) : List Char :=
  dropEndWhile isPySpace (l.dropWhile isPySpace)

/-- Python `str.strip()`. -/
def pyStrip (s : String) : String :=
  ⟨stripL s.data⟩

/-- Python `str.lower()`, ASCII fragment (the inputs graded here are ASCII). -/
def pyLower (s : String) : String :=
  ⟨s.data.map Char.toLower⟩

/-- Result dict of `GradingSimulator.grade_one_word`:
keys `is_correct`, `score_percentage`, `explanation`. -/
structure OneWordResult where
  is_correct : Bool
  score_percentage : ℚ
  explanation : String
deriving DecidableEq

/-- `GradingSimulator.grade_one_word(student_answer, correct_answer,
case_sensitive)`.  Python's `not student_answer` on a string is the
emptiness test; `str()` on a string input is the identity. -/
def gradeOneWord (student_answer correct_answer : String)
    (case_sensitive : Bool) : OneWordResult :=
  if student_answer = "" ∨ correct_answer = "" then
    ⟨false, 0, "Missing answer"⟩
  else
    let student_ans := pyStrip student_answer
    let correct_ans := pyStrip correct_answer
    let student_ans := if case_sensitive then student_ans else pyLower student_ans
    let correct_ans := if case_sensitive then correct_ans else pyLower correct_ans
    if student_ans = correct_ans then
      ⟨true, 100, "Exact match"⟩
    else
      ⟨false, 0, "Not an exact match"⟩

/-- Either argument form accepted by `grade_list`: a raw string (tokenized by
`_normalize_list_items`) or an already-split list of items. -/
inductive StrOrList where
  | str (s : String)
  | lst (l : List String)

/-- Python truthiness test `not x` for the two input forms: empty string or
empty list. -/
def isFalsy : StrOrList → Bool
  | .str s => s == ""
  | .lst l => l.isEmpty

/-- Bullet characters recognized by `_normalize_list_items`: `-`, `•`, `*`. -/
def isBulletChar (c : Char) : Bool :=
  c = '-' || c = '•' || c = '*'

/-- One attempt of the search pattern `\n\s*[-•*]\s+` at a position just past a
newline: skip the (maximal) whitespace run, then require a bullet followed by
one whitespace character.  Backtracking inside `\s*` cannot help, because
stopping the run early leaves a whitespace character where the bullet must
stand. -/
def bulletAfterNewline (l : List Char) : Bool :=
  match l.dropWhile isPySpace with
  | b :: s :: _ => isBulletChar b && isPySpace s
  | _ => false

/-- One attempt of the search pattern `\n\s*\d+\.\s+` just past a newline:
whitespace run, a maximal nonempty digit run, a dot, one whitespace character.
Shrinking the greedy `\d+` leaves a digit where the dot must stand, so only
the maximal run can match. -/
def numberedAfterNewline (l : List Char) : Bool :=
  let l1 := l.dropWhile isPySpace
  match l1.takeWhile isPyDigit, l1.dropWhile isPyDigit with
  | _ :: _, '.' :: s :: _ => isPySpace s
  | _, _ => false

/-- `re.search(r'\n\s*[-•*]\s+', text) or re.search(r'\n\s*\d+\.\s+', text)`:
both searches scan all positions, so the disjunction of the two `re.search`
calls equals one scan trying either pattern at every newline. -/
def hasLineMarkers : List Char → Bool
  | [] => false
  | c :: rest =>
    (c = '\n' && (bulletAfterNewline rest || numberedAfterNewline rest)) ||
      hasLineMarkers rest

/-- Split on every character satisfying `p`, keeping empty pieces — the
behaviour of `str.split('\n')`.  For the delimiter split
`re.split(r'[,;\t\n]+', ...)` a *run* of delimiters yields interior empty
pieces here; those pieces are dropped unchanged by the subsequent
`if clean:` filter, so the normalized output coincides. -/
def splitOnPred (p : Char → Bool) : List Char → List (List Char)
  | [] => [[]]
  | c :: rest =>
    match splitOnPred p rest with
    | [] => [[c]]
    | piece :: pieces =>
      if p c then [] :: piece :: pieces else (c :: piece) :: pieces

/-- First alternative of the marker patterns, anchored at the start of `l`:
`\s*[-•*]\s+`, returning the text after the maximal whitespace run that
follows the bullet. -/
def tryBulletMarker (l : List Char) : Option (List Char) :=
  match l.dropWhile isPySpace with
  | b :: s :: rest =>
    if isBulletChar b && isPySpace s then some ((s :: rest).dropWhile isPySpace)
    else none
  | _ => none

/-- Second alternative, anchored at the start of `l`: `\s*\d+\.\s+`,
returning the text after the maximal whitespace run that follows the dot. -/
def tryNumberMarker (l : List Char) : Option (List Char) :=
  let l1 := l.dropWhile isPySpace
  match l1.takeWhile isPyDigit, l1.dropWhile isPyDigit with
  | _ :: _, '.' :: s :: rest =>
    if isPySpace s then some ((s :: rest).dropWhile isPySpace) else none
  | _, _ => none

/-- `re.match(r'\s*(?:[-•*]|\d+\.)\s+(.*)', line)` followed by
`match.group(1).strip()`.  `group(1)` is the line content after the maximal
whitespace run following the marker, and stripping it equals stripping
everything after the marker, which is what the two helpers return (up to the
final `stripL`). -/
def markerLineRemainder (l : List Char) : Option (List Char) :=
  match tryBulletMarker l with
  | some r => some (stripL r)
  | none => (tryNumberMarker l).map stripL

/-- `re.sub(r'\s+', ' ', item)`: replace every maximal whitespace run by a
single space.  The boolean records whether the previous character was part of
a run already replaced. -/
def collapseWsAux : Bool → List Char → List Char
  | _, [] => []
  | inRun, c :: rest =>
    if isPySpace c then
      if inRun then collapseWsAux true rest else ' ' :: collapseWsAux true rest
    else c :: collapseWsAux false rest

/-- `re.sub(r'\s+', ' ', item)`. -/
def collapseWs (l : List Char) : List Char :=
  collapseWsAux false l

/-- `re.sub(r'^\s*[-•*]\s+|^\s*\d+\.\s+', '', item)`: the pattern is anchored
at the string start, so at most one removal happens, trying the bullet
alternative first. -/
def stripLeadingMarker (l : List Char) : List Char :=
  match tryBulletMarker l with
  | some r => r
  | none =>
    match tryNumberMarker l with
    | some r => r
    | none => l

/-- `GradingSimulator._normalize_list_items(answer, case_sensitive)`.  If the
bullet/numbered-list detection fires and at least one line yields a nonempty
marker-stripped remainder, those remainders are the items; otherwise the
string is split on `[,;\t\n]`, each piece has a leading marker removed,
whitespace collapsed, is stripped, and empty pieces are dropped. -/
def normalizeListItems (answer : String) (case_sensitive : Bool) : List String :=
  let chars := answer.data
  let bulletItems :=
    if hasLineMarkers ('\n' :: chars) then
      (splitOnPred (· = '\n') chars).filterMap fun line =>
        match markerLineRemainder line with
        | some g => if g.isEmpty then none else some g
        | none => none
    else []
  if !bulletItems.isEmpty then
    bulletItems.map fun item =>
      ⟨if case_sensitive then item else item.map Char.toLower⟩
  else
    (splitOnPred (fun c => c = ',' || c = ';' || c = '\t' || c = '\n') chars).filterMap
      fun item =>
        let clean := stripL (collapseWs (stripLeadingMarker item))
        if clean.isEmpty then none
        else some ⟨if case_sensitive then clean else clean.map Char.toLower⟩

/-- Normalization applied by `grade_list` to each side: strings go through
`_normalize_list_items`; lists have each item stripped (and lowered unless
`case_sensitive`), keeping empty items — exactly the two branches of the
source. -/
def toTokens : StrOrList → Bool → List String
  | .str s, cs => normalizeListItems s cs
  | .lst l, cs =>
    let stripped := l.map pyStrip
    if cs then stripped else stripped.map pyLower

/-- Helper for `lcsLen`: the longest-common-subsequence recurrence with the
first list's recursive calls abstracted into `f`, so that both definitions
are structural and kernel-reducible. -/
def lcsAux (a : String) (f : List String → Nat) : List String → Nat
  | [] => 0
  | b :: bs => if a = b then f bs + 1 else max (lcsAux a f bs) (f (b :: bs))

/-- `GradingSimulator._longest_common_subsequence(list1, list2)`.  The source
fills an `(m+1) × (n+1)` table with
`dp[i][j] = dp[i-1][j-1] + 1` on equal tokens, else
`max(dp[i-1][j], dp[i][j-1])`, and returns `dp[m][n]` — the memoized form of
exactly this recursion, which satisfies
`lcsLen (a::as) (b::bs) = if a = b then lcsLen as bs + 1 else
 max (lcsLen (a::as) bs) (lcsLen as (b::bs))` definitionally. -/
def lcsLen : List String → List String → Nat
  | [], _ => 0
  | a :: as, l2 => lcsAux a (lcsLen as) l2

/-- Result dict of `GradingSimulator.grade_list`: keys `is_correct`,
`score_percentage`, `matched_items`, `explanation`. -/
structure ListResult where
  is_correct : Bool
  score_percentage : ℚ
  matched_items : List String
  explanation : String
deriving DecidableEq

/-- The one exception `grade_list` can leak to its caller: `ZeroDivisionError`
from `len(matched) / len(correct_set)` or `lcs_length / len(correct_list)`. -/
inductive PyErr where
  | zeroDivision
deriving DecidableEq

/-- Floor of a rational. -/
def ratFloor (q : ℚ) : Int :=
  Int.fdiv q.num (q.den : Int)

/-- Model of the f-string format `f"{score:.1f}"`.  CPython rounds the binary
double half-to-even; this model rounds the exact rational half-up.  No claim
in this file depends on these formatted digits. -/
def fmt1 (q : ℚ) : String :=
  let t : Int := ratFloor (q * 10 + 1 / 2)
  let w : Int := Int.fdiv t 10
  let f : Nat := (t - 10 * w).toNat
  toString w ++ "." ++ toString f

/-- Model of `list(student_set.intersection(correct_set))`: the elements of
the intersection, listed in first-occurrence order of the student list.  (The
Python list order is a set-iteration artifact of the process's hash seed; the
set of elements is what the grading logic consumes.) -/
def matchedOf (student_list correct_list : List String) : List String :=
  student_list.dedup.filter (fun x => x ∈ correct_list)

/-- Body of `GradingSimulator.grade_list` after both sides have been
normalized into token lists.  `decide (100 ≤ score)` is the source's
`score >= 100.0`; `len(...)` of a Python set is `Finset.card` of the
token list's `toFinset`. -/
def gradeListCore (student_list correct_list : List String)
    (order_sensitive partial_matching : Bool) : Except PyErr ListResult :=
  if order_sensitive then
    if student_list = correct_list then
      .ok ⟨true, 100, student_list, "Perfect match with correct order"⟩
    else if partial_matching then
      if correct_list.length = 0 then .error .zeroDivision
      else
        let score : ℚ :=
          (lcsLen student_list correct_list : ℚ) / (correct_list.length : ℚ) * 100
        .ok ⟨decide (100 ≤ score), score, [],
          "Partial match: " ++ fmt1 score ++ "% (order matters)"⟩
    else
      .ok ⟨false, 0, [], "Lists don't match (order matters)"⟩
  else
    let matched := matchedOf student_list correct_list
    if student_list.toFinset = correct_list.toFinset then
      .ok ⟨true, 100, matched, "Perfect match (all items present)"⟩
    else if partial_matching then
      if correct_list.toFinset.card = 0 then .error .zeroDivision
      else
        let score : ℚ :=
          ((student_list.toFinset ∩ correct_list.toFinset).card : ℚ) /
            (correct_list.toFinset.card : ℚ) * 100
        .ok ⟨decide (100 ≤ score), score, matched,
          "Partial match: " ++
            toString (student_list.toFinset ∩ correct_list.toFinset).card ++ "/" ++
            toString correct_list.toFinset.card ++ " items correct"⟩
    else
      .ok ⟨false, 0, matched, "Lists don't match"⟩

/-- `GradingSimulator.grade_list(student_answer, correct_answer,
order_sensitive, partial_matching, case_sensitive)`. -/
def gradeList (student_answer correct_answer : StrOrList)
    (order_sensitive partial_matching case_sensitive : Bool) :
    Except PyErr ListResult :=
  if isFalsy student_answer || isFalsy correct_answer then
    .ok ⟨false, 0, [], "Missing answer"⟩
  else
    gradeListCore (toTokens student_answer case_sensitive)
      (toTokens correct_answer case_sensitive) order_sensitive partial_matching

/-- Cleaning step of `grade_numerical`:
`str(x).replace(',', '').replace(' ', '')` — remove commas and space
characters (only U+0020, not all whitespace). -/
def cleanNum (s : String) : String :=
  ⟨s.data.filter (fun c => !(c = ',' || c = ' '))⟩

/-- Numeric value of a digit run. -/
def digitsToNat (l : List Char) : Nat :=
  l.foldl (fun n c => 10 * n + (c.toNat - '0'.toNat)) 0

/-- Exact value of a parsed decimal literal: sign, integer digits, fraction
digits, exponent sign and digits.  Python's `float()` rounds this value to
the nearest binary double; the model keeps it exact. -/
def floatVal (neg : Bool) (ip fp : List Char) (eneg : Bool) (ed : List Char) : ℚ :=
  let mag : ℚ := (digitsToNat ip : ℚ) + (digitsToNat fp : ℚ) / 10 ^ fp.length
  let base : ℚ := if neg then -mag else mag
  let e : ℚ := 10 ^ digitsToNat ed
  if eneg then base / e else base * e

/-- Grammar of `float()` restricted to finite decimal literals:
`[+-]? (digits [. digits?] | . digits) ([eE] [+-]? digits)?` on the
whitespace-stripped input.  CPython additionally accepts `inf`, `nan`,
`infinity` and underscore digit separators; those exotic spellings are
outside this model (no claim here depends on them). -/
def pyFloatCore (l : List Char) : Option ℚ :=
  let signAndRest : Bool × List Char :=
    match l with
    | '+' :: r => (false, r)
    | '-' :: r => (true, r)
    | _ => (false, l)
  let neg := signAndRest.1
  let r := signAndRest.2
  let ip := r.takeWhile isPyDigit
  let r1 := r.dropWhile isPyDigit
  let fracAndRest : List Char × List Char :=
    match r1 with
    | '.' :: r2 => (r2.takeWhile isPyDigit, r2.dropWhile isPyDigit)
    | _ => ([], r1)
  let fp := fracAndRest.1
  let r2 := fracAndRest.2
  if ip.isEmpty && fp.isEmpty then none
  else
    match r2 with
    | [] => some (floatVal neg ip fp false [])
    | e :: r3 =>
      if e = 'e' || e = 'E' then
        let esignAndRest : Bool × List Char :=
          match r3 with
          | '+' :: r4 => (false, r4)
          | '-' :: r4 => (true, r4)
          | _ => (false, r3)
        let eneg := esignAndRest.1
        let r4 := esignAndRest.2
        let ed := r4.takeWhile isPyDigit
        let r5 := r4.dropWhile isPyDigit
        if ed.isEmpty then none
        else if r5.isEmpty then some (floatVal neg ip fp eneg ed) else none
      else none

/-- `float(s)`: strip surrounding whitespace, parse, and on failure raise
`ValueError("could not convert string to float: " + repr(s))` — the CPython
message, with `repr` modelled as plain single quotes (the inputs here need
no escaping). -/
def pyFloatE (s : String) : Except String ℚ :=
  match pyFloatCore (stripL s.data) with
  | some q => .ok q
  | none => .error ("could not convert string to float: '" ++ s ++ "'")

/-- Whether `float()` succeeds on `s`. -/
def isOkFloat (s : String) : Bool :=
  match pyFloatE s with
  | .ok _ => true
  | .error _ => false

/-- The `answer_range` dict of `grade_numerical`: key "min" (absent key
defaults to `float('-inf')`), key "max" (absent defaults to `float('inf')`),
key "tolerance_percent" (absent falls back to the scalar
`tolerance_percent` argument).  `none` at the dict level models passing
`answer_range=None`. -/
structure AnswerRange where
  minVal : Option ℚ
  maxVal : Option ℚ
  tolPercent : Option ℚ
deriving DecidableEq

/-! `none` at a key models an *absent* key.  A dict holding an explicit
`None` value (which would make `float(None)` raise a caught `TypeError`) and
the falsy empty dict `{}` (behaviourally identical to passing
`answer_range=None`) are outside this representation. -/

/-- Result dict of `GradingSimulator.grade_numerical`: keys `is_correct`,
`score_percentage`, `difference` (may be `None`), `explanation`. -/
structure NumericalResult where
  is_correct : Bool
  score_percentage : ℚ
  difference : Option ℚ
  explanation : String
deriving DecidableEq

/-- `min_val`: `float(answer_range.get("min", float('-inf')))` when a range
dict is given, else `float('-inf')`; `none` stands for minus infinity. -/
def resolvedMin (ar : Option AnswerRange) : Option ℚ :=
  match ar with
  | some r => r.minVal
  | none => none

/-- `max_val`, with `none` standing for plus infinity. -/
def resolvedMax (ar : Option AnswerRange) : Option ℚ :=
  match ar with
  | some r => r.maxVal
  | none => none

/-- `tolerance`: `answer_range.get("tolerance_percent", tolerance_percent)`
when a range dict is given, else the scalar `tolerance_percent` argument. -/
def resolvedTol (ar : Option AnswerRange) (tolerance_percent : ℚ) : ℚ :=
  match ar with
  | some r => r.tolPercent.getD tolerance_percent
  | none => tolerance_percent

/-- The chained comparison `min_val <= student_value <= max_val`, with the
infinite default bounds represented by `none` (every finite value passes
them). -/
def inRangeCheck (mn mx : Option ℚ) (v : ℚ) : Bool :=
  (match mn with
   | none => true
   | some m => decide (m ≤ v)) &&
  (match mx with
   | none => true
   | some m => decide (v ≤ m))

/-- Decimal text of a rational for the f-string interpolations.  CPython
formats binary doubles (`5.0`, `-inf`, …); this model prints the exact
rational.  No claim in this file depends on these interpolated digits. -/
def ratStr (q : ℚ) : String :=
  toString q

/-- Interpolation of an optional bound, `none` printing as an infinity. -/
def optStr (o : Option ℚ) (dflt : String) : String :=
  match o with
  | some q => ratStr q
  | none => dflt

/-- `GradingSimulator.grade_numerical(student_answer, correct_answer,
range_sensitive, tolerance_percent, answer_range)`.  The `try` block catches
exactly the `ValueError` of a failed `float()` (string inputs raise nothing
else here), producing the Invalid-numerical-format record; `epsilon` models
`max(0.0001, abs(correct_value) * 1e-9)` with the two float constants taken
as exact rationals.  The source's nested `if tolerance > 0: ... if
lower_bound <= student_value <= upper_bound: return ...` followed by the
shared failure return is written here as one conditional on the conjunction,
which takes the failure branch in exactly the same cases. -/
def gradeNumerical (student_answer correct_answer : String)
    (range_sensitive : Bool) (tolerance_percent : ℚ)
    (answer_range : Option AnswerRange) : NumericalResult :=
  let student_str := cleanNum student_answer
  let correct_str := cleanNum correct_answer
  if student_str = correct_str then
    ⟨true, 100, some 0, "Exact match: " ++ student_str⟩
  else
    match pyFloatE student_str with
    | .error e => ⟨false, 0, none, "Invalid numerical format: " ++ e⟩
    | .ok student_value =>
      match pyFloatE correct_str with
      | .error e => ⟨false, 0, none, "Invalid numerical format: " ++ e⟩
      | .ok correct_value =>
        let difference := |student_value - correct_value|
        if range_sensitive then
          let mn := resolvedMin answer_range
          let mx := resolvedMax answer_range
          let tolerance := resolvedTol answer_range tolerance_percent
          if inRangeCheck mn mx student_value then
            ⟨true, 100, some difference,
              "Value " ++ ratStr student_value ++ " is within range [" ++
                optStr mn "-inf" ++ ", " ++ optStr mx "inf" ++ "]"⟩
          else if 0 < tolerance ∧
              correct_value - correct_value * (tolerance / 100) ≤ student_value ∧
              student_value ≤ correct_value + correct_value * (tolerance / 100) then
            ⟨true, 100, some difference,
              "Within " ++ ratStr tolerance ++ "% tolerance of " ++
                ratStr correct_value⟩
          else
            ⟨false, 0, some difference,
              "Value " ++ ratStr student_value ++
                " outside acceptable range/tolerance"⟩
        else
          let epsilon := max (1 / 10000 : ℚ) (|correct_value| * (1 / 1000000000))
          if difference ≤ epsilon then
            ⟨true, 100, some difference,
              "Exact numerical match: " ++ ratStr student_value⟩
          else
            ⟨false, 0, some difference,
              "Expected " ++ ratStr correct_value ++ ", got " ++
                ratStr student_value ++ " (diff: " ++ ratStr difference ++ ")"⟩

/-- One exchange with the semantic oracle, as observed by
`_check_meaning_with_ollama`: either `ollama.chat` returns and `reply`
carries `response["message"]["content"]`, or the call raises and the
`except Exception` branch runs (`failure`). -/
inductive OracleOutcome where
  | reply (content : String)
  | failure

/-- Word boundary `\b` after a just-matched digit: end of input or a
non-word character. -/
def boundaryOk (l : List Char) : Bool :=
  match l with
  | [] => true
  | c :: _ => !isWordChar c

/-- `float()` of a matched group of the shape `<digit>` or
`<digit>.<digits>`: exact value of the decimal text. -/
def ratOfParts (ipVal : Nat) (ds : List Char) : ℚ :=
  (ipVal : ℚ) + (digitsToNat ds : ℚ) / 10 ^ ds.length

/-- One attempt of `\b([01](?:\.\d+)?|0\.\d+)\b` at a position whose leading
boundary already holds.  The first alternative tries the greedy optional
fraction (maximal digit run — shrinking `\d+` leaves a digit where the
trailing `\b` must hold, so only the maximal run can close the group), then
falls back to the bare digit.  The second alternative `0\.\d+` matches only
texts the first alternative already matched at this position, so it adds
nothing. -/
def tryConfAt (c : Char) (rest : List Char) : Option ℚ :=
  if c = '0' || c = '1' then
    let dv : Nat := if c = '1' then 1 else 0
    match rest with
    | '.' :: r2 =>
      let ds := r2.takeWhile isPyDigit
      if !ds.isEmpty && boundaryOk (r2.dropWhile isPyDigit) then
        some (ratOfParts dv ds)
      else if boundaryOk rest then some ((dv : ℚ)) else none
    | _ => if boundaryOk rest then some ((dv : ℚ)) else none
  else none

/-- `re.search` scan: positions are tried left to right; the boolean says
whether a match may start here (`\b` holds: start of string or previous
character non-word — the matched text always starts with a digit, a word
character). -/
def searchConfAux : Bool → List Char → Option ℚ
  | _, [] => none
  | bAllowed, c :: rest =>
    match (if bAllowed then tryConfAt c rest else none) with
    | some v => some v
    | none => searchConfAux (!isWordChar c) rest

/-- `re.search(r'\b([01](?:\.\d+)?|0\.\d+)\b', content)` followed by
`float(match.group(1))`. -/
def extractConfidence (content : String) : Option ℚ :=
  searchConfAux true content.data

/-- Python's `pat in s` substring test. -/
def containsSeq (pat : List Char) : List Char → Bool
  | [] => pat.isEmpty
  | c :: rest => pat.isPrefixOf (c :: rest) || containsSeq pat rest

/-- `GradingSimulator._check_meaning_with_ollama`, with the network exchange
abstracted into an `OracleOutcome`: on an exception the `except` branch
returns `(False, 0.0)` unconditionally; on a reply the stripped content is
scanned for the confidence number, falling back to the "true"-keyword test,
and the pair `(confidence >= threshold, confidence)` is returned. -/
def checkMeaningWithOllama (outcome : OracleOutcome) (threshold : ℚ) :
    Bool × ℚ :=
  match outcome with
  | .failure => (false, 0)
  | .reply raw =>
    let content := pyStrip raw
    let confidence : ℚ :=
      match extractConfidence content with
      | some v => v
      | none => if containsSeq "true".data (pyLower content).data then 1 else 0
    (decide (threshold ≤ confidence), confidence)

/-- Result dict of `GradingSimulator.grade_short_phrase`: keys `is_correct`,
`score_percentage`, `confidence`, `explanation`. -/
structure PhraseResult where
  is_correct : Bool
  score_percentage : ℚ
  confidence : ℚ
  explanation : String
deriving DecidableEq

/-- Model of the f-string format `f"{confidence:.2f}"` (same caveat as
`fmt1`: no claim depends on these digits). -/
def fmt2 (q : ℚ) : String :=
  let t : Int := ratFloor (q * 100 + 1 / 2)
  let w : Int := Int.fdiv t 100
  let f : Nat := (t - 100 * w).toNat
  toString w ++ "." ++ (if f < 10 then "0" else "") ++ toString f

/-- `GradingSimulator.grade_short_phrase(student_answer, correct_answer,
question_text, semantic_threshold)`.  `question_text` only shapes the prompt
string sent to the oracle; the exchange itself is abstracted into `outcome`,
so the argument cannot influence the result. -/
def gradeShortPhrase (student_answer correct_answer : String)
    (_question_text : Option String) (semantic_threshold : ℚ)
    (outcome : OracleOutcome) : PhraseResult :=
  if student_answer = "" ∨ correct_answer = "" then
    ⟨false, 0, 0, "Missing answer"⟩
  else
    let r := checkMeaningWithOllama outcome semantic_threshold
    ⟨r.1, r.2 * 100, r.2, "Semantic similarity: " ++ fmt2 r.2⟩

/-- Claim C8: `grade_one_word` returns the Missing-answer record when either
input is empty, and otherwise is correct exactly when the trimmed (and,
for `case_sensitive = false`, case-folded) strings coincide. -/
theorem c8_exact_matcher (s c : String) (cs : Bool) :
    ((s = "" ∨ c = "") → gradeOneWord s c cs = ⟨false, 0, "Missing answer"⟩) ∧
    (s ≠ "" → c ≠ "" →
      ((gradeOneWord s c cs).is_correct = true ↔
        (if cs then pyStrip s else pyLower (pyStrip s)) =
          (if cs then pyStrip c else pyLower (pyStrip c)))) := by
  constructor
  · intro h
    simp only [gradeOneWord, if_pos h]
  · intro hs hc
    have hne : ¬ (s = "" ∨ c = "") := by
      rintro (h | h)
      · exact hs h
      · exact hc h
    simp only [gradeOneWord, if_neg hne]
    by_cases cs = true <;> rename_i hcs <;> simp [hcs] <;> split <;>
      simp_all

/-- Witness for C8 at a concrete input: " Cat " matches "cat"
case-insensitively. -/
theorem c8_exact_matcher_witness :
    (gradeOneWord " Cat " "cat" false).is_correct = true := by
  have h := (c8_exact_matcher " Cat " "cat" false).2 (by decide) (by decide)
  exact h.mpr (by decide)

/-- The LCS recurrence never exceeds the length of the second list, provided
the abstracted recursive calls do not. -/
theorem lcsAux_le (a : String) (f : List String → Nat)
    (hf : ∀ l, f l ≤ l.length) : ∀ l2, lcsAux a f l2 ≤ l2.length
  | [] => by simp [lcsAux]
  | b :: bs => by
    simp only [lcsAux, List.length_cons]
    split
    · exact Nat.succ_le_succ (hf bs)
    · exact max_le (Nat.le_succ_of_le (lcsAux_le a f hf bs)) (hf (b :: bs))

/-- The LCS length is at most the length of the second (correct) list. -/
theorem lcsLen_le (l1 l2 : List String) : lcsLen l1 l2 ≤ l2.length := by
  induction l1 generalizing l2 with
  | nil => simp [lcsLen]
  | cons a as ih => exact lcsAux_le a (lcsLen as) (fun l => ih l) l2

/-- The partial-credit threshold `score >= 100` with `score = k / n * 100`
unfolds to `n ≤ k`. -/
theorem hundred_le_score_iff (k n : Nat) (hn : n ≠ 0) :
    ((100 : ℚ) ≤ (k : ℚ) / (n : ℚ) * 100) ↔ n ≤ k := by
  have hn' : (0 : ℚ) < (n : ℚ) := by exact_mod_cast Nat.pos_of_ne_zero hn
  rw [div_mul_eq_mul_div, le_div_iff₀ hn', mul_comm (100 : ℚ) (n : ℚ),
    mul_le_mul_right (show (0 : ℚ) < 100 by norm_num)]
  exact_mod_cast Iff.rfl

/-- Order-sensitive partial branch of `grade_list`: with unequal token
sequences and a nonempty correct sequence, `is_correct` is the test
"the LCS has the full length of the correct sequence". -/
theorem gradeListCore_order_pm (s c : List String) (hne : s ≠ c)
    (hn : c.length ≠ 0) :
    Except.map ListResult.is_correct (gradeListCore s c true true) =
      .ok (decide (lcsLen s c = c.length)) := by
  have hiff : ((100 : ℚ) ≤ (lcsLen s c : ℚ) / (c.length : ℚ) * 100) ↔
      lcsLen s c = c.length := by
    rw [hundred_le_score_iff _ _ hn]
    exact ⟨fun h => le_antisymm (lcsLen_le s c) h, fun h => h.ge⟩
  simp only [gradeListCore, if_neg hne, if_neg hn, if_true, Except.map,
    decide_eq_decide.mpr hiff]

/-- Order-insensitive partial branch of `grade_list`: with unequal token sets
and a nonempty correct set, `is_correct` is the test "every correct token
occurs among the student tokens". -/
theorem gradeListCore_unord_pm (s c : List String)
    (hne : s.toFinset ≠ c.toFinset) (hn : c.toFinset.card ≠ 0) :
    Except.map ListResult.is_correct (gradeListCore s c false true) =
      .ok (decide (c.toFinset ⊆ s.toFinset)) := by
  have hsub : s.toFinset ∩ c.toFinset ⊆ c.toFinset := Finset.inter_subset_right
  have hiff : ((100 : ℚ) ≤ ((s.toFinset ∩ c.toFinset).card : ℚ) /
      (c.toFinset.card : ℚ) * 100) ↔ c.toFinset ⊆ s.toFinset := by
    rw [hundred_le_score_iff _ _ hn]
    constructor
    · intro h
      exact Finset.inter_eq_right.mp (Finset.eq_of_subset_of_card_le hsub h)
    · intro h
      exact le_of_eq (congrArg Finset.card (Finset.inter_eq_right.mpr h)).symm
  simp only [gradeListCore, if_neg hne, if_neg hn, Bool.false_eq_true,
    if_false, if_true, Except.map, decide_eq_decide.mpr hiff]

/-- Claim C1 counterexample: student tokens `["a","b"]`, correct tokens
`["a"]`, order-sensitive with partial matching.  The sequences are not
identical, so the partial-credit branch runs — and returns
`is_correct = true` (LCS length 1 equals the correct length, score 100),
refuting "the partial-credit branch can never yield is_correct = true". -/
theorem c1_partial_true_counterexample :
    toTokens (.lst ["a", "b"]) false ≠ toTokens (.lst ["a"]) false ∧
    Except.map ListResult.is_correct
      (gradeList (.lst ["a", "b"]) (.lst ["a"]) true true false) =
      .ok true := by
  constructor
  · decide
  · have h := gradeListCore_order_pm ["a", "b"] ["a"] (by decide) (by decide)
    exact h.trans rfl

/-- Claim C1, amended: in the partial-credit branch (tokens not identical in
the order-sensitive path, token sets not equal in the order-insensitive
path, nonempty correct side), `is_correct` equals `score >= 100`, which
holds iff the LCS has the full correct length (ordered) resp. the correct
set is contained in the student set (unordered) — so it can be `true`, namely
when the student answer strictly contains the correct one. -/
theorem c1_partial_branch_amended :
    (∀ (s c : StrOrList) (cs : Bool),
      isFalsy s = false → isFalsy c = false →
      toTokens s cs ≠ toTokens c cs →
      (toTokens c cs).length ≠ 0 →
      Except.map ListResult.is_correct (gradeList s c true true cs) =
        .ok (decide (lcsLen (toTokens s cs) (toTokens c cs) =
          (toTokens c cs).length))) ∧
    (∀ (s c : StrOrList) (cs : Bool),
      isFalsy s = false → isFalsy c = false →
      (toTokens s cs).toFinset ≠ (toTokens c cs).toFinset →
      (toTokens c cs).toFinset.card ≠ 0 →
      Except.map ListResult.is_correct (gradeList s c false true cs) =
        .ok (decide ((toTokens c cs).toFinset ⊆ (toTokens s cs).toFinset))) := by
  constructor
  · intro s c cs hs hc hne hn
    simp only [gradeList, hs, hc, Bool.or_self, Bool.false_eq_true, if_false]
    exact gradeListCore_order_pm _ _ hne hn
  · intro s c cs hs hc hne hn
    simp only [gradeList, hs, hc, Bool.or_self, Bool.false_eq_true, if_false]
    exact gradeListCore_unord_pm _ _ hne hn

/-- Witness for the amended C1 at a concrete input: correct tokens `["y"]`
inside student tokens `["x","y"]` make the unordered partial branch return
`is_correct = true`. -/
theorem c1_partial_branch_amended_witness :
    Except.map ListResult.is_correct
      (gradeList (.lst ["x", "y"]) (.lst ["y"]) false true false) =
      .ok true := by
  have h := c1_partial_branch_amended.2 (.lst ["x", "y"]) (.lst ["y"]) false
    (by decide) (by decide) (by decide) (by decide)
  exact h.trans rfl

/-- Claim C2 fails on the code: `grade_list("a", ",,,")` (default flags:
order-insensitive, partial matching) normalizes the correct answer to no
tokens, reaches `len(matched) / len(correct_set)` with an empty correct set,
and raises `ZeroDivisionError` instead of returning a `GradingResult`. -/
theorem c2_zero_division_on_list :
    gradeList (.str "a") (.str ",,,") false true false =
      .error PyErr.zeroDivision := by
  rfl

/-- Claim C4 fails on the code: `",,,"` and `";;;"` both normalize to an
empty token sequence, yet `grade_list` does not return the Missing-answer
record — the raw inputs are truthy, the two empty token sets compare equal,
and the result is a full-credit "Perfect match". -/
theorem c4_empty_tokens_not_missing :
    normalizeListItems ",,," false = [] ∧
    gradeList (.str ",,,") (.str ";;;") false true false =
      .ok ⟨true, 100, [], "Perfect match (all items present)"⟩ := by
  exact ⟨rfl, rfl⟩

/-- A character list is a prefix of itself followed by anything. -/
theorem isPrefixOf_append_self (a b : List Char) :
    a.isPrefixOf (a ++ b) = true :=
  List.isPrefixOf_iff_prefix.mpr (List.prefix_append a b)

/-- Claim C5: in `grade_numerical` with `range_sensitive` true and parseable,
non-identical cleaned inputs, the range check decides correctness first
(regardless of tolerance); outside the range, with a positive resolved
tolerance, correctness is exactly membership in the inclusive band
`correct_value ± correct_value * tolerance/100` as literally computed —
for negative correct values the two bounds invert and the band is empty. -/
theorem c5_range_priority_then_tolerance_band (s c : String) (tp : ℚ)
    (ar : Option AnswerRange) (sv cv : ℚ)
    (hne : cleanNum s ≠ cleanNum c)
    (hs : pyFloatE (cleanNum s) = .ok sv)
    (hc : pyFloatE (cleanNum c) = .ok cv) :
    (inRangeCheck (resolvedMin ar) (resolvedMax ar) sv = true →
      (gradeNumerical s c true tp ar).is_correct = true) ∧
    (inRangeCheck (resolvedMin ar) (resolvedMax ar) sv = false →
      0 < resolvedTol ar tp →
      ((gradeNumerical s c true tp ar).is_correct = true ↔
        (cv - cv * (resolvedTol ar tp / 100) ≤ sv ∧
          sv ≤ cv + cv * (resolvedTol ar tp / 100)))) := by
  constructor
  · intro h
    simp only [gradeNumerical, if_neg hne, hs, hc, h, if_true]
  · intro h ht
    simp only [gradeNumerical, if_neg hne, hs, hc, h, Bool.false_eq_true,
      if_false]
    by_cases hb : (cv - cv * (resolvedTol ar tp / 100) ≤ sv ∧
        sv ≤ cv + cv * (resolvedTol ar tp / 100))
    · have hC : 0 < resolvedTol ar tp ∧
          (cv - cv * (resolvedTol ar tp / 100) ≤ sv ∧
            sv ≤ cv + cv * (resolvedTol ar tp / 100)) := ⟨ht, hb⟩
      rw [if_pos hC]
      exact ⟨fun _ => hb, fun _ => rfl⟩
    · have hcond : ¬ (0 < resolvedTol ar tp ∧
          (cv - cv * (resolvedTol ar tp / 100) ≤ sv ∧
            sv ≤ cv + cv * (resolvedTol ar tp / 100))) := fun hx => hb hx.2
      rw [if_neg hcond]
      exact iff_of_false (by simp) hb

/-- Witness for C5: student 5 against correct 10 with range `[0, 1]` and a
60% scalar tolerance — the range check fails, the band `[4, 16]` accepts. -/
theorem c5_range_priority_then_tolerance_band_witness :
    (gradeNumerical "5" "10" true 60 (some ⟨some 0, some 1, none⟩)).is_correct =
      true := by
  have hd5 : digitsToNat ['5'] = 5 := by decide
  have hd10 : digitsToNat ['1', '0'] = 10 := by decide
  have hd0 : digitsToNat [] = 0 := by decide
  have h5 : pyFloatE (cleanNum "5") = .ok 5 := by
    have h0 : pyFloatE (cleanNum "5") = .ok (floatVal false ['5'] [] false []) := rfl
    rw [h0]; norm_num [floatVal, hd5, hd0]
  have h10 : pyFloatE (cleanNum "10") = .ok 10 := by
    have h0 : pyFloatE (cleanNum "10") =
        .ok (floatVal false ['1', '0'] [] false []) := rfl
    rw [h0]; norm_num [floatVal, hd10, hd0]
  have h := c5_range_priority_then_tolerance_band "5" "10" 60
    (some ⟨some 0, some 1, none⟩) 5 10 (by decide) h5 h10
  have hr : inRangeCheck (resolvedMin (some ⟨some 0, some 1, none⟩))
      (resolvedMax (some ⟨some 0, some 1, none⟩)) 5 = false := by
    simp only [inRangeCheck, resolvedMin, resolvedMax]
    rw [decide_eq_false (by norm_num : ¬ ((5 : ℚ) ≤ 1))]
    simp
  have htol : (0 : ℚ) < resolvedTol (some ⟨some 0, some 1, none⟩) 60 := by
    norm_num [resolvedTol]
  exact (h.2 hr htol).mpr (by norm_num [resolvedTol])

/-- Claim C6: with `range_sensitive` true and no `answer_range`, the bounds
default to the infinities, so any parseable pair with different cleaned
strings is graded correct with score 100 — independently of the correct
answer's value — and the tolerance branch cannot run. -/
theorem c6_default_range_always_correct (s c : String) (tp : ℚ) (sv cv : ℚ)
    (hne : cleanNum s ≠ cleanNum c)
    (hs : pyFloatE (cleanNum s) = .ok sv)
    (hc : pyFloatE (cleanNum c) = .ok cv) :
    (gradeNumerical s c true tp none).is_correct = true ∧
    (gradeNumerical s c true tp none).score_percentage = 100 := by
  have hr : inRangeCheck (resolvedMin none) (resolvedMax none) sv = true := by
    simp [inRangeCheck, resolvedMin, resolvedMax]
  simp only [gradeNumerical, if_neg hne, hs, hc, hr, if_true]
  exact ⟨trivial, trivial⟩

/-- Witness for C6: "1" against "2" with zero tolerance is still graded
correct under the default infinite range. -/
theorem c6_default_range_always_correct_witness :
    (gradeNumerical "1" "2" true 0 none).is_correct = true ∧
    (gradeNumerical "1" "2" true 0 none).score_percentage = 100 := by
  have hd1 : digitsToNat ['1'] = 1 := by decide
  have hd2 : digitsToNat ['2'] = 2 := by decide
  have hd0 : digitsToNat [] = 0 := by decide
  have h1 : pyFloatE (cleanNum "1") = .ok 1 := by
    have h0 : pyFloatE (cleanNum "1") = .ok (floatVal false ['1'] [] false []) := rfl
    rw [h0]; norm_num [floatVal, hd1, hd0]
  have h2 : pyFloatE (cleanNum "2") = .ok 2 := by
    have h0 : pyFloatE (cleanNum "2") = .ok (floatVal false ['2'] [] false []) := rfl
    rw [h0]; norm_num [floatVal, hd2, hd0]
  exact c6_default_range_always_correct "1" "2" 0 1 2 (by decide) h1 h2

/-- Claim C7 counterexample: on the unparseable input "abc" the explanation
carries the appended `str(e)` detail, so it is not the bare string the claim
(and spec) state. -/
theorem c7_explanation_counterexample :
    (gradeNumerical "abc" "1" false 0 none).explanation =
      "Invalid numerical format: could not convert string to float: 'abc'" ∧
    (gradeNumerical "abc" "1" false 0 none).explanation ≠
      "Invalid numerical format" := by
  exact ⟨rfl, by decide⟩

/-- Claim C7, amended: with different cleaned strings of which at least one
does not parse, `grade_numerical` returns (without raising) a result with
`is_correct` false, score 0, `difference` null, and an explanation that
*starts with* "Invalid numerical format" (the caught exception's text is
appended). -/
theorem c7_invalid_format_amended (s c : String) (rs : Bool) (tp : ℚ)
    (ar : Option AnswerRange)
    (hne : cleanNum s ≠ cleanNum c)
    (hbad : isOkFloat (cleanNum s) = false ∨ isOkFloat (cleanNum c) = false) :
    (gradeNumerical s c rs tp ar).is_correct = false ∧
    (gradeNumerical s c rs tp ar).score_percentage = 0 ∧
    (gradeNumerical s c rs tp ar).difference = none ∧
    ("Invalid numerical format".data).isPrefixOf
      (gradeNumerical s c rs tp ar).explanation.data = true := by
  have hpre : ∀ e : String,
      ("Invalid numerical format".data).isPrefixOf
        ("Invalid numerical format: " ++ e).data = true := by
    intro e
    have h2 : ("Invalid numerical format: " ++ e).data =
        "Invalid numerical format".data ++ (": " ++ e).data := rfl
    rw [h2]
    exact isPrefixOf_append_self _ _
  cases he : pyFloatE (cleanNum s) with
  | error e =>
    simp only [gradeNumerical, if_neg hne, he]
    exact ⟨trivial, trivial, trivial, hpre e⟩
  | ok sv =>
    cases he2 : pyFloatE (cleanNum c) with
    | error e =>
      simp only [gradeNumerical, if_neg hne, he, he2]
      exact ⟨trivial, trivial, trivial, hpre e⟩
    | ok cv =>
      exfalso
      rcases hbad with hb | hb <;> simp [isOkFloat, he, he2] at hb

/-- Witness for the amended C7 at a concrete input. -/
theorem c7_invalid_format_amended_witness :
    (gradeNumerical "abc" "1" true 5 none).is_correct = false ∧
    (gradeNumerical "abc" "1" true 5 none).difference = none := by
  have h := c7_invalid_format_amended "abc" "1" true 5 none (by decide)
    (Or.inl (by decide))
  exact ⟨h.1, h.2.2.1⟩

/-- Claim C3 fails on the code: the confidence regex
`\b([01](?:\.\d+)?|0\.\d+)\b` also matches numbers above 1 such as "1.5",
so an oracle reply of "1.5" yields confidence 1.5 and
`score_percentage = 150`, outside `[0, 100]`. -/
theorem c3_score_above_hundred :
    extractConfidence "1.5" = some (ratOfParts 1 ['5']) ∧
    (gradeShortPhrase "cat" "feline" none (7/10)
      (.reply "1.5")).score_percentage = 150 ∧
    (gradeShortPhrase "cat" "feline" none (7/10)
      (.reply "1.5")).is_correct = true := by
  have hd : digitsToNat ['5'] = 5 := by decide
  have hv : ratOfParts 1 ['5'] = 3 / 2 := by
    norm_num [ratOfParts, hd]
  refine ⟨rfl, ?_, ?_⟩
  · have hs : (gradeShortPhrase "cat" "feline" none (7/10)
        (.reply "1.5")).score_percentage = ratOfParts 1 ['5'] * 100 := rfl
    rw [hs, hv]; norm_num
  · have hb : (gradeShortPhrase "cat" "feline" none (7/10)
        (.reply "1.5")).is_correct =
        decide ((7 : ℚ)/10 ≤ ratOfParts 1 ['5']) := rfl
    rw [hb, decide_eq_true (by rw [hv]; norm_num : (7 : ℚ)/10 ≤ ratOfParts 1 ['5'])]

/-- Claim C9: when the oracle call raises, `grade_short_phrase` (with both
answers nonempty) degrades to `is_correct = false`, `confidence = 0.0`
instead of propagating the failure — for every threshold, because the
`except` branch returns `(False, 0.0)` unconditionally. -/
theorem c9_oracle_failure_fail_closed (s c : String) (q : Option String)
    (th : ℚ) (hs : s ≠ "") (hc : c ≠ "") :
    (gradeShortPhrase s c q th .failure).is_correct = false ∧
    (gradeShortPhrase s c q th .failure).confidence = 0 := by
  have hne : ¬ (s = "" ∨ c = "") := by
    rintro (h | h)
    · exact hs h
    · exact hc h
  simp [gradeShortPhrase, if_neg hne, checkMeaningWithOllama]

/-- Witness for C9 at a concrete input. -/
theorem c9_oracle_failure_fail_closed_witness :
    (gradeShortPhrase "a" "b" none (7/10) .failure).is_correct = false ∧
    (gradeShortPhrase "a" "b" none (7/10) .failure).confidence = 0 :=
  c9_oracle_failure_fail_closed "a" "b" none (7/10) (by decide) (by decide)

/-- Claim C10: the three non-semantic matchers are, in this embedding, pure
functions of their arguments — the source methods read no state besides
their parameters (`self` is never consulted) — so two calls with identical
arguments return identical results. -/
theorem c10_determinism :
    (∀ (s c : String) (cs : Bool), gradeOneWord s c cs = gradeOneWord s c cs) ∧
    (∀ (s c : StrOrList) (os pm cs : Bool),
      gradeList s c os pm cs = gradeList s c os pm cs) ∧
    (∀ (s c : String) (rs : Bool) (tp : ℚ) (ar : Option AnswerRange),
      gradeNumerical s c rs tp ar = gradeNumerical s c rs tp ar) :=
  ⟨fun _ _ _ => rfl, fun _ _ _ _ _ => rfl, fun _ _ _ _ _ => rfl⟩
